import Mathlib

/-
Verification of the multipatch_analysis morphology-pipeline, waveform-fit and
database-lookup components against their natural-language specification.

The Python sources are shallowly embedded:
  * aisynphys/pipeline/multipatch/morphology.py
      (create_db_entries, ready_jobs, morpho_db, import_morpho_db)
  * analyses/exp_fit_test.py
      (ExpFitMethod.fit / exp_fn / exp_err_fn / exp_jac_fn, PspFitMethod.fit)
  * multipatch_analysis/database/synphys_database.py
      (slice_from_timestamp, experiment_from_timestamp)

External collaborators (hashlib.md5, float(), scipy.optimize.minimize,
neuroanalysis Psp.psp_func, sqrt/exp, the lims service and the Access/JSON
morphology source) are passed in as explicit function parameters; machine
floats are modelled by rationals; a Python exception is modelled by the
error side of Except / by Option.none.
-/

/-- A Python value as it appears in an external morphology row: None,
a string, or a number. -/
inductive PyVal where
  | pynone : PyVal
  | str : String → PyVal
  | num : ℚ → PyVal
deriving DecidableEq

/-- One external morphology row, as built by import_morpho_db:
an insertion-ordered mapping from column name to value
(`{k: getattr(r, k) for k in fields}`). -/
def MorphoRec : Type := List (String × PyVal)

instance : DecidableEq MorphoRec := by
  unfold MorphoRec
  infer_instance

/-- Python repr of one value (string values are quoted, None prints as None;
string escaping is elided, the records of interest contain no quotes). -/
def pyValRepr : PyVal → String
  | PyVal.pynone => "None"
  | PyVal.str s => "'" ++ s ++ "'"
  | PyVal.num q => toString q

/-- Python str() of one value, as used by the %s format in error messages. -/
def pyValStr : PyVal → String
  | PyVal.pynone => "None"
  | PyVal.str s => s
  | PyVal.num q => toString q

/-- Python repr of the row dict, i.e. repr(cell_morpho):
`\x7b'k1': v1, 'k2': v2\x7d` in insertion order. -/
def pyRepr (rec : MorphoRec) : String :=
  "\x7b" ++ ", ".intercalate (rec.map (fun kv => "'" ++ kv.1 ++ "': " ++ pyValRepr kv.2)) ++ "\x7d"

/-- The hash input used by create_db_entries for the stored morpho_db_hash:
the md5 digest is taken of repr(cell_morpho). -/
def createHashInput (rec : MorphoRec) : String := pyRepr rec

/-- Python `filter(None, xs)` over an iterable of optional strings:
drops None and the falsy empty string. -/
def pyFilterTruthy : List (Option String) → List String
  | [] => []
  | Option.none :: rest => pyFilterTruthy rest
  | Option.some s :: rest => if s = "" then pyFilterTruthy rest else s :: pyFilterTruthy rest

/-- The iterable fed to ';'.join by ready_jobs:
`morpho_results.get(cell.id, [None])`.  Iterating the row dict yields its
KEYS; the default for a missing cell id is the one-element list [None]. -/
def readyHashIterable (mr : List (Int × MorphoRec)) (cid : Int) : List (Option String) :=
  match mr.lookup cid with
  | Option.some rec => rec.map (fun kv => Option.some kv.1)
  | Option.none => [Option.none]

/-- The hash input recomputed by ready_jobs for one cell:
`';'.join(filter(None, morpho_results.get(cell.id, [None])))`. -/
def readyHashInput (mr : List (Int × MorphoRec)) (cid : Int) : String :=
  ";".intercalate (pyFilterTruthy (readyHashIterable mr cid))

/-- Modelled from the spec: the spec's description of the ready_jobs content
hash input — "hash of the pipe-joined, null-filtered field values" of the
external record.  Stated only for comparison with readyHashInput, which is
the definition taken from the source. -/
def specHashInput (rec : MorphoRec) : String :=
  "|".intercalate (rec.filterMap (fun kv =>
    match kv.2 with
    | PyVal.pynone => Option.none
    | PyVal.str s => Option.some s
    | PyVal.num q => Option.some (toString q)))

/-- The declared type of a morphology column: plain string, float, or an
enumerated value set. -/
inductive ColType where
  | strType : ColType
  | floatType : ColType
  | enumType : List String → ColType

/-- The col_names table of morphology.py: external column name, database
column name, column type. -/
def col_names : List (String × String × ColType) :=
  [ ("Qual_Morpho_Type", "qual_morpho_type", ColType.strType),
    ("dendrite_type", "dendrite_type", ColType.enumType ["spiny", "aspiny", "sparsely spiny", "NEI"]),
    ("Apical_truncation_distance", "apical_trunc_distance", ColType.floatType),
    ("Axon_truncation_distance", "axon_trunc_distance", ColType.floatType),
    ("Axon origination", "axon_origin", ColType.enumType ["soma", "dendrite", "unclear", "NEI"]),
    ("Axon_truncation", "axon_truncation", ColType.enumType ["truncated", "borderline", "intact", "unclear", "NEI"]),
    ("Apical_truncation", "apical_truncation", ColType.enumType ["truncated", "borderline", "intact", "unclear", "NEI"]) ]

/-- Python `t == data` for an enumerated candidate t (a string) against the
raw column value. -/
def pyValEqStr (data : PyVal) (t : String) : Bool :=
  match data with
  | PyVal.str s => s = t
  | _ => false

/-- Python `float(data)` for a non-None value: numbers convert directly,
strings go through the parser pyFloat (a stdlib collaborator), whose
failure (ValueError) is Option.none. -/
def pyFloatVal (pyFloat : String → Option ℚ) : PyVal → Option ℚ
  | PyVal.num q => Option.some q
  | PyVal.str s => pyFloat s
  | PyVal.pynone => Option.none

/-- The per-record error message raised by create_db_entries:
'Error parsing morphology annotation %s for cell %d from column %s'. -/
def morphoErrMsg (data : PyVal) (sid : Int) (dbName : String) : String :=
  "Error parsing morphology annotation " ++ pyValStr data ++ " for cell " ++ toString sid ++ " from column " ++ dbName

/-- Normalization of one column value of one external row, as in the body of
the for loop of create_db_entries (lines 80-93 of morphology.py). -/
def processColumn (pyFloat : String → Option ℚ) (sid : Int) (dbName : String) (ty : ColType) (data : PyVal) : Except String PyVal :=
  if data = PyVal.pynone then Except.ok data
  else
    match ty with
    | ColType.enumType vals =>
      match vals.filter (pyValEqStr data) with
      | [t] => Except.ok (PyVal.str t)
      | _ => Except.error (morphoErrMsg data sid dbName)
    | ColType.floatType =>
      match pyFloatVal pyFloat data with
      | Option.some q => Except.ok (PyVal.num q)
      | Option.none => Except.error (morphoErrMsg data sid dbName)
    | ColType.strType => Except.ok data

/-- Normalization of every declared column of one external row; a missing
column is an uncaught KeyError and also aborts. -/
def processColumns (pyFloat : String → Option ℚ) (sid : Int) (rec : MorphoRec) : Except String (List (String × PyVal)) :=
  col_names.mapM (fun entry =>
    match rec.lookup entry.1 with
    | Option.none => Except.error ("KeyError: " ++ entry.1)
    | Option.some data => (processColumn pyFloat sid entry.1 entry.2.2 data).map (fun v => (entry.2.1, v)))

/-- Normalization of the experimenter-supplied morphology string
(lines 59-65 of morphology.py).  Returns the pyramidal flag together with
the list of warning lines printed. -/
def parsePyramidal : Option String → Option Bool × List String
  | Option.none => (Option.none, [])
  | Option.some s =>
    if s = "" then (Option.none, [])
    else if s = "pyr" then (Option.some true, [])
    else (Option.none, ["Unknown morphology string: " ++ s])

/-- The per-cell inputs of create_db_entries: the database key of the cell,
the experimenter morphology string from the pipette metadata, and the lims
specimen id from the cell metadata. -/
structure CellIn where
  cell_id : Int
  user_morpho : Option String
  lims_specimen_id : Option Int

/-- The persisted Morphology record built by create_db_entries.  The
normalized annotation columns are kept as an ordered (db column, value)
list; the cell_class_nonsynaptic update of the Cell row is outside this
record. -/
structure Morphology where
  cell_id : Int
  pyramidal : Option Bool
  cortical_layer : Option String
  morpho_db_hash : Option String
  columns : List (String × PyVal)
deriving DecidableEq

/-- Python str.lstrip('Layer'): strips any leading characters drawn from
the set of 'Layer', as applied to the lims cortical layer. -/
def pyLstripLayer (s : String) : String :=
  String.mk (s.data.dropWhile (fun c => c = 'L' ∨ c = 'a' ∨ c = 'y' ∨ c = 'e' ∨ c = 'r'))

/-- The import of one cell (one iteration of the cell loop of
create_db_entries).  md5 is the hashlib collaborator, cellLayer the lims
collaborator, mr the external morphology source keyed by specimen id.
Returns the Morphology record and the warning lines printed, or the raised
error. -/
def createCellEntry (md5 : String → String) (pyFloat : String → Option ℚ) (mr : List (Int × MorphoRec)) (cellLayer : Int → Option String) (c : CellIn) : Except String (Morphology × List String) :=
  let cortical_layer :=
    match c.lims_specimen_id with
    | Option.some sid => (cellLayer sid).map pyLstripLayer
    | Option.none => Option.none
  let pyr := parsePyramidal c.user_morpho
  match c.lims_specimen_id with
  | Option.none =>
    Except.ok ({ cell_id := c.cell_id, pyramidal := pyr.1, cortical_layer := cortical_layer,
                 morpho_db_hash := Option.none, columns := [] }, pyr.2)
  | Option.some sid =>
    match mr.lookup sid with
    | Option.none =>
      Except.ok ({ cell_id := c.cell_id, pyramidal := pyr.1, cortical_layer := cortical_layer,
                   morpho_db_hash := Option.none, columns := [] }, pyr.2)
    | Option.some rec =>
      match processColumns pyFloat sid rec with
      | Except.error e => Except.error e
      | Except.ok fields =>
        Except.ok ({ cell_id := c.cell_id, pyramidal := pyr.1, cortical_layer := cortical_layer,
                     morpho_db_hash := Option.some (md5 (createHashInput rec)), columns := fields }, pyr.2)

/-- create_db_entries over the experiment's cells: a raise inside the loop
propagates and aborts the whole call; on success all records (in order) and
all printed warnings are returned. -/
def create_db_entries (md5 : String → String) (pyFloat : String → Option ℚ) (mr : List (Int × MorphoRec)) (cellLayer : Int → Option String) (cells : List CellIn) : Except String (List Morphology × List String) :=
  (cells.mapM (createCellEntry md5 pyFloat mr cellLayer)).map
    (fun pairs => (pairs.map (fun p => p.1), pairs.foldr (fun p acc => p.2 ++ acc) []))

/-- A Python exception of the kinds the morphology source can raise:
ImportError (driver module missing), a pyodbc database error (source
database unreachable), or an IO error (flat file unreadable). -/
inductive PyExc where
  | importError : String → PyExc
  | pyodbcError : String → PyExc
  | ioError : String → PyExc
deriving DecidableEq

/-- The external-source environment of morpho_db: whether config carries a
morpho_address, the outcome of `import pyodbc`, the outcome of connecting
to and fetching from the Access database, and the outcome of reading the
flat JSON file. -/
structure MorphoEnv where
  hasMorphoAddress : Bool
  importPyodbc : Except PyExc Unit
  fetchAccessTable : Except PyExc (List (Int × MorphoRec))
  readJsonFile : Except PyExc (List (Int × MorphoRec))

/-- import_morpho_db: `import pyodbc` first (may raise ImportError), then
connect and fetch the MPATCH_CellsofCluster table (may raise a pyodbc
error). -/
def import_morpho_db (env : MorphoEnv) : Except PyExc (List (Int × MorphoRec)) :=
  match env.importPyodbc with
  | Except.error e => Except.error e
  | Except.ok _ => env.fetchAccessTable

/-- morpho_db: uses the Access driver when config has morpho_address,
otherwise loads the flat JSON file (may raise an IO error). -/
def morpho_db (env : MorphoEnv) : Except PyExc (List (Int × MorphoRec)) :=
  if env.hasMorphoAddress then import_morpho_db env else env.readJsonFile

/-- One entry of the finished_jobs map ready_jobs iterates over, together
with the lims cluster id found on the queried experiment record. -/
structure ExptJob where
  ext_id : String
  mtime : Nat
  success : Bool
  cluster : Option Int

/-- The stored morpho_db_hash values of the Morphology records whose Cell
has the given lims_specimen_id string (the join query of ready_jobs, which
can return zero, one or several rows). -/
def storedRecsFor (stored : List (String × Option String)) (sid : String) : List (Option String) :=
  (stored.filter (fun p => p.1 = sid)).map (fun p => p.2)

/-- The cell_hash_compare list built by ready_jobs: one Bool per cluster
cell with a non-None id, true when exactly one Morphology record matches
and its stored hash equals the recomputed hash. -/
def cellHashCompare (md5 : String → String) (mr : List (Int × MorphoRec)) (stored : List (String × Option String)) (cells : List (Option Int)) : List Bool :=
  cells.filterMap (fun cid? =>
    match cid? with
    | Option.none => Option.none
    | Option.some cid =>
      let h := md5 (readyHashInput mr cid)
      Option.some (match storedRecsFor stored (toString cid) with
        | [Option.some r] => decide (h = r)
        | _ => false))

/-- The readiness timestamp ready_jobs records for one finished experiment
job: the dependency mtime, bumped to now when not all of the cell hash
comparisons hold (`if all(cell_hash_compare) is False`); jobs without a
resolvable cluster or cluster cells keep the dependency mtime. -/
def jobDepTime (md5 : String → String) (mr : List (Int × MorphoRec)) (stored : List (String × Option String)) (clusterCells : Int → Option (List (Option Int))) (now : Nat) (job : ExptJob) : Nat :=
  match job.cluster with
  | Option.none => job.mtime
  | Option.some cl =>
    match clusterCells cl with
    | Option.none => job.mtime
    | Option.some cells =>
      if (cellHashCompare md5 mr stored cells).all (fun b => b) then job.mtime else now

/-- ready_jobs: loads the external morphology source, catching ONLY
ImportError (returning the ready map empty in that case); any other
exception propagates.  Unsuccessful jobs are skipped; each successful job
is mapped to its readiness timestamp. -/
def ready_jobs (md5 : String → String) (env : MorphoEnv) (expts : List ExptJob) (stored : List (String × Option String)) (clusterCells : Int → Option (List (Option Int))) (now : Nat) : Except PyExc (List (String × Nat)) :=
  match morpho_db env with
  | Except.error (PyExc.importError _) => Except.ok []
  | Except.error e => Except.error e
  | Except.ok mr =>
    Except.ok (expts.filterMap (fun job =>
      if job.success then Option.some (job.ext_id, jobDepTime md5 mr stored clusterCells now job)
      else Option.none))

/-- The scipy OptimizeResult fields read by ExpFitMethod.fit: the parameter
vector, the achieved objective value, the evaluation count and the
convergence flag.  scipy returns such a record even on non-convergence. -/
structure OptResult3 where
  xvec : ℚ × ℚ × ℚ
  fval : ℚ
  nfev : Nat
  success : Bool

/-- The OptimizeResult read by PspFitMethod.fit (four parameters). -/
structure OptResult4 where
  xvec : ℚ × ℚ × ℚ × ℚ
  fval : ℚ
  nfev : Nat
  success : Bool

/-- The result dict built by ExpFitMethod.fit (its fit_time wall-clock
field is outside the model). -/
structure ExpFitRecord where
  fitres : OptResult3
  yoffset : ℚ
  amp : ℚ
  tau : ℚ
  init_yoffset : ℚ
  init_amp : ℚ
  init_tau : ℚ
  err : ℚ
  nfev : Nat
  success : Bool

/-- The result dict built by PspFitMethod.fit. -/
structure PspFitRecord where
  fitres : OptResult4
  yoffset : ℚ
  amp : ℚ
  rise_time : ℚ
  decay_tau : ℚ
  init_yoffset : ℚ
  init_amp : ℚ
  init_rise_time : ℚ
  init_decay_tau : ℚ
  err : ℚ
  nfev : Nat
  success : Bool

/-- ExpFitMethod.exp_fn: yoffset + amp * exp(-t / tau), with the float exp
passed in as the collaborator pexp. -/
def exp_fn (pexp : ℚ → ℚ) (params : ℚ × ℚ × ℚ) (tval : ℚ) : ℚ :=
  params.1 + params.2.1 * pexp (-tval / params.2.2)

/-- The sum of squared residuals of the exponential model over the paired
samples, i.e. ((yoff + amp*exp(-t/tau) - y)**2).sum(). -/
def expNormSq (pexp : ℚ → ℚ) (params : ℚ × ℚ × ℚ) (t y : List ℚ) : ℚ :=
  ((t.zip y).map (fun p => (exp_fn pexp params p.1 - p.2) ^ 2)).sum

/-- ExpFitMethod.exp_err_fn: np.linalg.norm of the residual vector, i.e.
the float sqrt (collaborator psqrt) of the sum of squared residuals. -/
def exp_err_fn (psqrt pexp : ℚ → ℚ) (params : ℚ × ℚ × ℚ) (t y : List ℚ) : ℚ :=
  psqrt (expNormSq pexp params t y)

/-- ExpFitMethod.exp_jac_fn (lines 90-101 of exp_fit_test.py).  The source
divides each component by norm WITHOUT any zero guard; at norm = 0 the
float division yields non-finite values (NaN / Inf), modelled here as
Option.none.  Away from zero the closed-form gradient is returned. -/
def exp_jac_fn (psqrt pexp : ℚ → ℚ) (params : ℚ × ℚ × ℚ) (t y : List ℚ) : Option (ℚ × ℚ × ℚ) :=
  let yoff := params.1
  let amp := params.2.1
  let tau := params.2.2
  let n : ℚ := y.length
  let norm := psqrt (expNormSq pexp params t y)
  if norm = 0 then Option.none
  else
    let dyoff := (n * yoff + (t.map (fun ti => amp * pexp (-ti / tau))).sum - y.sum) / norm
    let damp := (((t.zip y).map (fun p => (yoff + amp * pexp (-p.1 / tau) - p.2) * pexp (-p.1 / tau))).sum) / norm
    let dtau := (((t.zip y).map (fun p => amp * (yoff + amp * pexp (-p.1 / tau) - p.2) * pexp (-p.1 / tau) * p.1 / tau ^ 2)).sum) / norm
    Option.some (dyoff, damp, dtau)

/-- ExpFitMethod.fit.  The scipy minimizer is the collaborator `minimize`,
given the objective and the initial guess (the jac and method options are
folded into the collaborator).  Empty y or t raises IndexError at y[-1] /
t[-1], modelled as Option.none; otherwise a record is always returned with
the minimizer's x, fun, nfev and success copied, converged or not. -/
def ExpFitMethod_fit (minimize : ((ℚ × ℚ × ℚ) → ℚ) → (ℚ × ℚ × ℚ) → OptResult3) (psqrt pexp : ℚ → ℚ) (y t : List ℚ) : Option ExpFitRecord :=
  match y.getLast?, y.head?, t.getLast?, t.head? with
  | Option.some ylast, Option.some yhead, Option.some tlast, Option.some thead =>
    let yoff := ylast
    let amp := yhead - yoff
    let tau := tlast - thead
    let fit := minimize (fun p => exp_err_fn psqrt pexp p t y) (yoff, amp, tau)
    Option.some
      { fitres := fit,
        yoffset := fit.xvec.1, amp := fit.xvec.2.1, tau := fit.xvec.2.2,
        init_yoffset := yoff, init_amp := amp, init_tau := tau,
        err := fit.fval, nfev := fit.nfev, success := fit.success }
  | _, _, _, _ => Option.none

/-- The box constraints handed to the minimizer by PspFitMethod.fit:
amplitude and offset in [-1, 1], rise time in [0.1 ms, 20 ms], decay tau
in [1 ms, 200 ms]. -/
def psp_bounds : List (ℚ × ℚ) :=
  [(-1, 1), (-1, 1), (1 / 10000, 20 / 1000), (1 / 1000, 200 / 1000)]

/-- PspFitMethod.psp_err_fn: the norm of y minus the PSP template; the
template Psp.psp_func (an external library, evaluated with xoffset 0.01 and
rise_power 2) is the collaborator pspFunc. -/
def psp_err_fn (psqrt : ℚ → ℚ) (pspFunc : (ℚ × ℚ × ℚ × ℚ) → ℚ → ℚ) (params : ℚ × ℚ × ℚ × ℚ) (t y : List ℚ) : ℚ :=
  psqrt (((t.zip y).map (fun p => (p.2 - pspFunc params p.1) ^ 2)).sum)

/-- PspFitMethod.fit, with the bounded scipy minimizer as collaborator.
Same IndexError behaviour on empty input and same always-return contract
as the exponential fit. -/
def PspFitMethod_fit (minimize : ((ℚ × ℚ × ℚ × ℚ) → ℚ) → (ℚ × ℚ × ℚ × ℚ) → List (ℚ × ℚ) → OptResult4) (psqrt : ℚ → ℚ) (pspFunc : (ℚ × ℚ × ℚ × ℚ) → ℚ → ℚ) (y t : List ℚ) : Option PspFitRecord :=
  match y.getLast?, y.head?, t.getLast?, t.head? with
  | Option.some ylast, Option.some yhead, Option.some tlast, Option.some thead =>
    let yoff := ylast
    let amp := yhead - yoff
    let decay_tau := tlast - thead
    let rise_time := decay_tau / 3
    let fit := minimize (fun p => psp_err_fn psqrt pspFunc p t y) (yoff, amp, rise_time, decay_tau) psp_bounds
    Option.some
      { fitres := fit,
        yoffset := fit.xvec.1, amp := fit.xvec.2.1,
        rise_time := fit.xvec.2.2.1, decay_tau := fit.xvec.2.2.2,
        init_yoffset := yoff, init_amp := amp,
        init_rise_time := rise_time, init_decay_tau := decay_tau,
        err := fit.fval, nfev := fit.nfev, success := fit.success }
  | _, _, _, _ => Option.none

/-- An Experiment row as seen by the timestamp lookups. -/
structure ExperimentRec where
  acq_timestamp : ℚ
deriving DecidableEq

/-- A Slice row as seen by the timestamp lookups. -/
structure SliceRec where
  acq_timestamp : ℚ
deriving DecidableEq

/-- SynphysDatabase.slice_from_timestamp: exact-match query; zero matches
raise KeyError, several matches raise KeyError, one match is returned.
(The %0.3f float formatting of the message is elided.) -/
def slice_from_timestamp (slices : List SliceRec) (ts : ℚ) : Except String SliceRec :=
  match slices.filter (fun s => decide (s.acq_timestamp = ts)) with
  | [] => Except.error ("No slice found for timestamp " ++ toString ts)
  | [s] => Except.ok s
  | _ :: _ :: _ => Except.error ("Multiple slices found for timestamp " ++ toString ts)

/-- SynphysDatabase.experiment_from_timestamp: exact-match query; on zero
matches every experiment is scanned and the first one within 0.01 of the
timestamp is returned, KeyError is raised when none is; several exact
matches raise RuntimeError. -/
def experiment_from_timestamp (expts : List ExperimentRec) (ts : ℚ) : Except String ExperimentRec :=
  match expts.filter (fun e => decide (e.acq_timestamp = ts)) with
  | [] =>
    match expts.find? (fun e => decide (|e.acq_timestamp - ts| < 1 / 100)) with
    | Option.some e => Except.ok e
    | Option.none => Except.error ("No experiment found for timestamp " ++ toString ts)
  | [e] => Except.ok e
  | _ :: _ :: _ => Except.error ("Multiple experiments found for timestamp " ++ toString ts)

/-- A realistic external morphology row (all declared columns present plus
the key column), used as the concrete input for the freshness claims. -/
def sampleMorphoRow : MorphoRec :=
  [ ("cell_specimen_id", PyVal.num 17),
    ("Qual_Morpho_Type", PyVal.str "mc"),
    ("dendrite_type", PyVal.str "spiny"),
    ("Apical_truncation_distance", PyVal.pynone),
    ("Axon_truncation_distance", PyVal.pynone),
    ("Axon origination", PyVal.str "soma"),
    ("Axon_truncation", PyVal.str "intact"),
    ("Apical_truncation", PyVal.str "intact") ]

/-- The morphology source holding exactly the sample row for specimen 17. -/
def sampleMorphoSource : List (Int × MorphoRec) := [(17, sampleMorphoRow)]

/-- A finished experiment job whose dependency mtime is 5 and whose lims
cluster is 3. -/
def sampleJob : ExptJob :=
  { ext_id := "expt1", mtime := 5, success := true, cluster := Option.some 3 }

/-- A lims cluster-cells collaborator reporting a single cell with
specimen id 17 for every cluster. -/
def sampleClusterCells : Int → Option (List (Option Int)) :=
  fun _ => Option.some [Option.some 17]

/-- An environment where the Access driver loads but the source database is
unreachable. -/
def dbDownEnv : MorphoEnv :=
  { hasMorphoAddress := true, importPyodbc := Except.ok (),
    fetchAccessTable := Except.error (PyExc.pyodbcError "database unreachable"),
    readJsonFile := Except.ok [] }

/-- An environment without morpho_address whose flat JSON file is
unreadable. -/
def fileBadEnv : MorphoEnv :=
  { hasMorphoAddress := false, importPyodbc := Except.ok (),
    fetchAccessTable := Except.ok [],
    readJsonFile := Except.error (PyExc.ioError "morpho json file unreadable") }

/-- An environment whose pyodbc driver module is missing. -/
def driverMissingEnv : MorphoEnv :=
  { hasMorphoAddress := true, importPyodbc := Except.error (PyExc.importError "No module named pyodbc"),
    fetchAccessTable := Except.ok [], readJsonFile := Except.ok [] }

/-- An external row whose dendrite_type annotation matches no value of the
enumerated set. -/
def badMorphoRow : MorphoRec :=
  [ ("cell_specimen_id", PyVal.num 42),
    ("Qual_Morpho_Type", PyVal.pynone),
    ("dendrite_type", PyVal.str "spiy"),
    ("Apical_truncation_distance", PyVal.pynone),
    ("Axon_truncation_distance", PyVal.pynone),
    ("Axon origination", PyVal.pynone),
    ("Axon_truncation", PyVal.pynone),
    ("Apical_truncation", PyVal.pynone) ]

/-- The cell whose external row is badMorphoRow. -/
def badCell : CellIn :=
  { cell_id := 1, user_morpho := Option.none, lims_specimen_id := Option.some 42 }

/-- A well-formed cell of the same experiment with no external row. -/
def goodCell : CellIn :=
  { cell_id := 2, user_morpho := Option.some "pyr", lims_specimen_id := Option.none }

/-- A stand-in scipy minimizer for the exponential fit that reports
non-convergence at the initial guess. -/
def trivialMinimize3 : ((ℚ × ℚ × ℚ) → ℚ) → (ℚ × ℚ × ℚ) → OptResult3 :=
  fun f x0 => { xvec := x0, fval := f x0, nfev := 1, success := false }

/-- A stand-in bounded scipy minimizer for the PSP fit that reports
non-convergence at the initial guess. -/
def trivialMinimize4 : ((ℚ × ℚ × ℚ × ℚ) → ℚ) → (ℚ × ℚ × ℚ × ℚ) → List (ℚ × ℚ) → OptResult4 :=
  fun f x0 _ => { xvec := x0, fval := f x0, nfev := 1, success := false }

theorem pyFilterTruthy_map_some (l : List String) :
    pyFilterTruthy (l.map Option.some) = l.filter (fun s => s ≠ "") := by
  induction l with
  | nil => rfl
  | cons a as ih =>
    simp only [List.map_cons, pyFilterTruthy, List.filter_cons]
    by_cases h : a = "" <;> simp [h, ih]

theorem keyMap_eq (rec : MorphoRec) :
    rec.map (fun kv => Option.some kv.1) = (rec.map Prod.fst).map Option.some := by
  simp [List.map_map, Function.comp]

/-- C1: the content-hash freshness round-trip FAILS on the code.  For the
unchanged sample row, the hash input stored by create_db_entries
(repr of the row dict) differs from the hash input recomputed by ready_jobs
(';'-join of the dict's keys); hence for any collision-free digest the two
hashes differ, and the readiness timestamp of a job whose stored hash is
exactly the one create_db_entries persisted is bumped from the dependency
time 5 to now = 99 even though the external source row is unchanged. -/
theorem morpho_hash_roundtrip_fails (md5 : String → String) (hinj : Function.Injective md5) :
    createHashInput sampleMorphoRow ≠ readyHashInput sampleMorphoSource 17
    ∧ md5 (createHashInput sampleMorphoRow) ≠ md5 (readyHashInput sampleMorphoSource 17)
    ∧ jobDepTime md5 sampleMorphoSource [("17", Option.some (md5 (createHashInput sampleMorphoRow)))] sampleClusterCells 99 sampleJob = 99 := by
  have hne : createHashInput sampleMorphoRow ≠ readyHashInput sampleMorphoSource 17 := by decide
  have hmd : md5 (createHashInput sampleMorphoRow) ≠ md5 (readyHashInput sampleMorphoSource 17) :=
    fun h => hne (hinj h)
  refine ⟨hne, hmd, ?_⟩
  have hstep : jobDepTime md5 sampleMorphoSource [("17", Option.some (md5 (createHashInput sampleMorphoRow)))] sampleClusterCells 99 sampleJob
      = if (List.all [decide (md5 (readyHashInput sampleMorphoSource 17) = md5 (createHashInput sampleMorphoRow))] (fun b => b)) then 5 else 99 := rfl
  rw [hstep, decide_eq_false (fun h => hmd h.symm)]
  rfl

/-- C1 witness: the failing input evaluated with a concrete injective
digest function. -/
theorem morpho_hash_roundtrip_fails_witness :
    createHashInput sampleMorphoRow ≠ readyHashInput sampleMorphoSource 17
    ∧ id (createHashInput sampleMorphoRow) ≠ id (readyHashInput sampleMorphoSource 17)
    ∧ jobDepTime id sampleMorphoSource [("17", Option.some (id (createHashInput sampleMorphoRow)))] sampleClusterCells 99 sampleJob = 99 :=
  morpho_hash_roundtrip_fails id (fun _ _ h => h)

/-- C6 counterexample: the hash input of ready_jobs is not the pipe-joined
null-filtered field values — on a one-field row it is the bare field NAME,
not the value. -/
theorem ready_hash_input_cex :
    readyHashInput [(17, [("Qual_Morpho_Type", PyVal.str "mc")])] 17 = "Qual_Morpho_Type"
    ∧ specHashInput [("Qual_Morpho_Type", PyVal.str "mc")] = "mc"
    ∧ readyHashInput [(17, [("Qual_Morpho_Type", PyVal.str "mc")])] 17
        ≠ specHashInput [("Qual_Morpho_Type", PyVal.str "mc")] := by
  refine ⟨rfl, rfl, ?_⟩
  decide

/-- C6 (amended): the content hash input computed by ready_jobs for a cell
present in the external source is the ';'-join of the row's non-empty
column NAMES — deterministic, but identical for any two sources agreeing on
the column names of that cell regardless of the stored values. -/
theorem ready_hash_input_keys_only (mr : List (Int × MorphoRec)) (cid : Int) (rec : MorphoRec)
    (h : mr.lookup cid = Option.some rec) :
    readyHashInput mr cid = ";".intercalate ((rec.map Prod.fst).filter (fun k => k ≠ ""))
    ∧ ∀ (mr' : List (Int × MorphoRec)) (rec' : MorphoRec), mr'.lookup cid = Option.some rec' →
        rec'.map Prod.fst = rec.map Prod.fst → readyHashInput mr' cid = readyHashInput mr cid := by
  constructor
  · unfold readyHashInput readyHashIterable
    rw [h]
    show ";".intercalate (pyFilterTruthy (rec.map (fun kv => Option.some kv.1))) = _
    rw [keyMap_eq, pyFilterTruthy_map_some]
  · intro mr' rec' h' hk
    unfold readyHashInput readyHashIterable
    rw [h, h']
    show ";".intercalate (pyFilterTruthy (rec'.map (fun kv => Option.some kv.1)))
      = ";".intercalate (pyFilterTruthy (rec.map (fun kv => Option.some kv.1)))
    rw [keyMap_eq, keyMap_eq, hk]

/-- C6 witness: the amended statement evaluated on the sample source. -/
theorem ready_hash_input_keys_only_witness :
    readyHashInput sampleMorphoSource 17
      = ";".intercalate ((sampleMorphoRow.map Prod.fst).filter (fun k => k ≠ ""))
    ∧ ∀ (mr' : List (Int × MorphoRec)) (rec' : MorphoRec), mr'.lookup 17 = Option.some rec' →
        rec'.map Prod.fst = sampleMorphoRow.map Prod.fst →
        readyHashInput mr' 17 = readyHashInput sampleMorphoSource 17 :=
  ready_hash_input_keys_only sampleMorphoSource 17 sampleMorphoRow rfl

/-- C2 counterexample: an unreachable source database (a pyodbc error) and
an unreadable flat JSON file are NOT caught by ready_jobs — the exception
propagates to the caller instead of yielding an empty ready map. -/
theorem ready_jobs_nonimport_error_propagates :
    ready_jobs id dbDownEnv [sampleJob] [] (fun _ => Option.none) 0
      = Except.error (PyExc.pyodbcError "database unreachable")
    ∧ ready_jobs id fileBadEnv [sampleJob] [] (fun _ => Option.none) 0
      = Except.error (PyExc.ioError "morpho json file unreadable") :=
  ⟨rfl, rfl⟩

/-- C2 (amended): only an ImportError from loading the external morphology
source (the driver module missing) degrades ready_jobs to an empty ready
map without raising; the other source failures propagate (see the
counterexample). -/
theorem ready_jobs_import_error_degrades (md5 : String → String) (env : MorphoEnv)
    (expts : List ExptJob) (stored : List (String × Option String))
    (clusterCells : Int → Option (List (Option Int))) (now : Nat) (m : String)
    (h : morpho_db env = Except.error (PyExc.importError m)) :
    ready_jobs md5 env expts stored clusterCells now = Except.ok [] := by
  unfold ready_jobs
  rw [h]

/-- C2 witness: a missing pyodbc driver module yields the empty ready map
even with a successful job pending. -/
theorem ready_jobs_import_error_degrades_witness :
    ready_jobs id driverMissingEnv [sampleJob] [] (fun _ => Option.none) 0 = Except.ok [] :=
  ready_jobs_import_error_degrades id driverMissingEnv [sampleJob] [] (fun _ => Option.none) 0
    "No module named pyodbc" rfl

/-- C3 counterexample: at a perfect fit (zero residual norm: the constant
model 2 on the sample y = [2]) the analytic gradient of the exponential
error divides by the zero norm — there is no guard, and the result is the
non-finite float vector (modelled Option.none), not the zero gradient. -/
theorem exp_jac_zero_norm_cex :
    exp_jac_fn id (fun q => 1 + q) (2, 0, 1) [0] [2] = Option.none
    ∧ exp_jac_fn id (fun q => 1 + q) (2, 0, 1) [0] [2] ≠ Option.some (0, 0, 0) := by
  have h0 : expNormSq (fun q => 1 + q) ((2 : ℚ), 0, 1) [0] [2] = 0 := by
    simp [expNormSq, exp_fn]
  have hmain : exp_jac_fn id (fun q => 1 + q) ((2 : ℚ), 0, 1) [0] [2] = Option.none := by
    unfold exp_jac_fn
    rw [h0]
    simp
  refine ⟨hmain, ?_⟩
  rw [hmain]
  simp

/-- C3 (amended): whenever the parameters fit every sample exactly, the
residual norm is zero and exp_jac_fn divides by that zero norm, producing
no valid gradient vector (in particular not a zero gradient); the source
contains no guard. -/
theorem exp_jac_perfect_fit_no_gradient (psqrt pexp : ℚ → ℚ) (params : ℚ × ℚ × ℚ)
    (t y : List ℚ) (hsq : psqrt 0 = 0)
    (hfit : ∀ p ∈ t.zip y, exp_fn pexp params p.1 = p.2) :
    exp_err_fn psqrt pexp params t y = 0
    ∧ exp_jac_fn psqrt pexp params t y = Option.none := by
  have hns : expNormSq pexp params t y = 0 := by
    unfold expNormSq
    refine List.sum_eq_zero ?_
    intro x hx
    rw [List.mem_map] at hx
    obtain ⟨p, hp, rfl⟩ := hx
    rw [hfit p hp]
    ring
  constructor
  · unfold exp_err_fn
    rw [hns, hsq]
  · unfold exp_jac_fn
    rw [hns, hsq]
    simp

/-- C3 witness: the amended statement at the concrete perfect fit. -/
theorem exp_jac_perfect_fit_no_gradient_witness :
    exp_err_fn id (fun _ => 1) (2, 0, 1) [0] [2] = 0
    ∧ exp_jac_fn id (fun _ => 1) (2, 0, 1) [0] [2] = Option.none :=
  exp_jac_perfect_fit_no_gradient id (fun _ => 1) (2, 0, 1) [0] [2] rfl
    (by
      intro p hp
      simp [List.zip] at hp
      subst hp
      simp [exp_fn])

/-- C4 counterexample: on empty sample arrays fit DOES raise — y[-1] is an
IndexError before the minimizer ever runs (modelled Option.none), for both
the exponential and the PSP method; so "for every input ... never raises"
fails as stated. -/
theorem fit_empty_input_raises :
    ExpFitMethod_fit trivialMinimize3 id (fun q => q) [] [] = Option.none
    ∧ PspFitMethod_fit trivialMinimize4 id (fun _ tval => tval) [] [] = Option.none :=
  ⟨rfl, rfl⟩

/-- C4 (amended): for every NON-EMPTY sample arrays y and t, fit never
raises: whatever result the minimizer reports — converged or not — a
record is returned carrying the minimizer's success flag, its best
parameter vector, its residual norm and its evaluation count, for both the
exponential and the PSP method. -/
theorem fit_total_and_records_nonconvergence
    (minimize3 : ((ℚ × ℚ × ℚ) → ℚ) → (ℚ × ℚ × ℚ) → OptResult3)
    (minimize4 : ((ℚ × ℚ × ℚ × ℚ) → ℚ) → (ℚ × ℚ × ℚ × ℚ) → List (ℚ × ℚ) → OptResult4)
    (psqrt pexp : ℚ → ℚ) (pspFunc : (ℚ × ℚ × ℚ × ℚ) → ℚ → ℚ)
    (y t : List ℚ) (hy : y ≠ []) (ht : t ≠ []) :
    (∃ r : ExpFitRecord, ExpFitMethod_fit minimize3 psqrt pexp y t = Option.some r
      ∧ r.success = r.fitres.success ∧ r.yoffset = r.fitres.xvec.1 ∧ r.amp = r.fitres.xvec.2.1
      ∧ r.tau = r.fitres.xvec.2.2 ∧ r.err = r.fitres.fval ∧ r.nfev = r.fitres.nfev)
    ∧ (∃ r : PspFitRecord, PspFitMethod_fit minimize4 psqrt pspFunc y t = Option.some r
      ∧ r.success = r.fitres.success ∧ r.yoffset = r.fitres.xvec.1 ∧ r.amp = r.fitres.xvec.2.1
      ∧ r.rise_time = r.fitres.xvec.2.2.1 ∧ r.decay_tau = r.fitres.xvec.2.2.2
      ∧ r.err = r.fitres.fval ∧ r.nfev = r.fitres.nfev) := by
  obtain ⟨yl, hyl⟩ : ∃ a, y.getLast? = Option.some a := by
    cases hgl : y.getLast? with
    | none => exact absurd (List.getLast?_eq_none_iff.mp hgl) hy
    | some a => exact ⟨a, rfl⟩
  obtain ⟨yh, hyh⟩ : ∃ a, y.head? = Option.some a := by
    cases hgh : y.head? with
    | none => exact absurd (List.head?_eq_none_iff.mp hgh) hy
    | some a => exact ⟨a, rfl⟩
  obtain ⟨tl, htl⟩ : ∃ a, t.getLast? = Option.some a := by
    cases hgl : t.getLast? with
    | none => exact absurd (List.getLast?_eq_none_iff.mp hgl) ht
    | some a => exact ⟨a, rfl⟩
  obtain ⟨th, hth⟩ : ∃ a, t.head? = Option.some a := by
    cases hgh : t.head? with
    | none => exact absurd (List.head?_eq_none_iff.mp hgh) ht
    | some a => exact ⟨a, rfl⟩
  constructor
  · unfold ExpFitMethod_fit
    rw [hyl, hyh, htl, hth]
    exact ⟨_, rfl, rfl, rfl, rfl, rfl, rfl, rfl⟩
  · unfold PspFitMethod_fit
    rw [hyl, hyh, htl, hth]
    exact ⟨_, rfl, rfl, rfl, rfl, rfl, rfl, rfl, rfl⟩

/-- C4 witness: the amended statement on a concrete two-sample input with a
non-converging minimizer. -/
theorem fit_total_and_records_nonconvergence_witness :
    (∃ r : ExpFitRecord, ExpFitMethod_fit trivialMinimize3 id id [3, 1] [0, 2] = Option.some r
      ∧ r.success = r.fitres.success ∧ r.yoffset = r.fitres.xvec.1 ∧ r.amp = r.fitres.xvec.2.1
      ∧ r.tau = r.fitres.xvec.2.2 ∧ r.err = r.fitres.fval ∧ r.nfev = r.fitres.nfev)
    ∧ (∃ r : PspFitRecord, PspFitMethod_fit trivialMinimize4 id (fun _ _ => 0) [3, 1] [0, 2] = Option.some r
      ∧ r.success = r.fitres.success ∧ r.yoffset = r.fitres.xvec.1 ∧ r.amp = r.fitres.xvec.2.1
      ∧ r.rise_time = r.fitres.xvec.2.2.1 ∧ r.decay_tau = r.fitres.xvec.2.2.2
      ∧ r.err = r.fitres.fval ∧ r.nfev = r.fitres.nfev) :=
  fit_total_and_records_nonconvergence trivialMinimize3 trivialMinimize4 id id (fun _ _ => 0)
    [3, 1] [0, 2] (by simp) (by simp)

/-- C5: the initial guess handed to the minimizer is exactly
yOffset0 = y[-1], amplitude0 = y[0] - yOffset0, tau0 = t[-1] - t[0] for the
exponential model, and decayTau0 = t[-1] - t[0], riseTime0 = decayTau0 / 3
for the PSP model, and the returned result reports these same values in its
initial-guess fields. -/
theorem fit_initial_guess
    (minimize3 : ((ℚ × ℚ × ℚ) → ℚ) → (ℚ × ℚ × ℚ) → OptResult3)
    (minimize4 : ((ℚ × ℚ × ℚ × ℚ) → ℚ) → (ℚ × ℚ × ℚ × ℚ) → List (ℚ × ℚ) → OptResult4)
    (psqrt pexp : ℚ → ℚ) (pspFunc : (ℚ × ℚ × ℚ × ℚ) → ℚ → ℚ)
    (y t : List ℚ) (y0 yN t0 tN : ℚ)
    (hy0 : y.head? = Option.some y0) (hyN : y.getLast? = Option.some yN)
    (ht0 : t.head? = Option.some t0) (htN : t.getLast? = Option.some tN) :
    (∃ r : ExpFitRecord, ExpFitMethod_fit minimize3 psqrt pexp y t = Option.some r
      ∧ r.init_yoffset = yN ∧ r.init_amp = y0 - yN ∧ r.init_tau = tN - t0
      ∧ r.fitres = minimize3 (fun p => exp_err_fn psqrt pexp p t y) (yN, y0 - yN, tN - t0))
    ∧ (∃ r : PspFitRecord, PspFitMethod_fit minimize4 psqrt pspFunc y t = Option.some r
      ∧ r.init_yoffset = yN ∧ r.init_amp = y0 - yN ∧ r.init_decay_tau = tN - t0
      ∧ r.init_rise_time = (tN - t0) / 3
      ∧ r.fitres = minimize4 (fun p => psp_err_fn psqrt pspFunc p t y)
          (yN, y0 - yN, (tN - t0) / 3, tN - t0) psp_bounds) := by
  constructor
  · unfold ExpFitMethod_fit
    rw [hyN, hy0, htN, ht0]
    exact ⟨_, rfl, rfl, rfl, rfl, rfl⟩
  · unfold PspFitMethod_fit
    rw [hyN, hy0, htN, ht0]
    exact ⟨_, rfl, rfl, rfl, rfl, rfl, rfl⟩

/-- C5 witness: the initial-guess policy evaluated at y = [3, 1],
t = [0, 2]. -/
theorem fit_initial_guess_witness :
    (∃ r : ExpFitRecord, ExpFitMethod_fit trivialMinimize3 id id [3, 1] [0, 2] = Option.some r
      ∧ r.init_yoffset = 1 ∧ r.init_amp = 3 - 1 ∧ r.init_tau = 2 - 0
      ∧ r.fitres = trivialMinimize3 (fun p => exp_err_fn id id p [0, 2] [3, 1]) (1, 3 - 1, 2 - 0))
    ∧ (∃ r : PspFitRecord, PspFitMethod_fit trivialMinimize4 id (fun _ _ => 0) [3, 1] [0, 2] = Option.some r
      ∧ r.init_yoffset = 1 ∧ r.init_amp = 3 - 1 ∧ r.init_decay_tau = 2 - 0
      ∧ r.init_rise_time = (2 - 0) / 3
      ∧ r.fitres = trivialMinimize4 (fun p => psp_err_fn id (fun _ _ => 0) p [0, 2] [3, 1])
          (1, 3 - 1, (2 - 0) / 3, 2 - 0) psp_bounds) :=
  fit_initial_guess trivialMinimize3 trivialMinimize4 id id (fun _ _ => 0)
    [3, 1] [0, 2] 3 1 0 2 rfl rfl rfl rfl

theorem mapM_append_error {α β : Type} (f : α → Except String β)
    (good : List α) (bad : α) (rest : List α) (e : String)
    (hgood : ∀ c ∈ good, ∃ v, f c = Except.ok v) (hbad : f bad = Except.error e) :
    List.mapM f (good ++ bad :: rest) = Except.error e := by
  induction good with
  | nil =>
    rw [List.nil_append, List.mapM_cons, hbad]
    rfl
  | cons a as ih =>
    obtain ⟨v, hv⟩ := hgood a (List.mem_cons_self a as)
    have ih' := ih (fun c hc => hgood c (List.mem_cons_of_mem a hc))
    rw [List.cons_append, List.mapM_cons, hv, ih']
    rfl

/-- C7 counterexample: a batch of two cells where the first cell's
dendrite_type annotation matches zero enumerated values.  The raise aborts
the WHOLE create_db_entries call — the second, well-formed cell is not
imported — although that same second cell imports fine on its own. -/
theorem morpho_batch_abort_cex :
    create_db_entries id (fun _ => Option.none) [(42, badMorphoRow)] (fun _ => Option.none)
        [badCell, goodCell]
      = Except.error "Error parsing morphology annotation spiy for cell 42 from column dendrite_type"
    ∧ create_db_entries id (fun _ => Option.none) [(42, badMorphoRow)] (fun _ => Option.none)
        [goodCell]
      = Except.ok ([{ cell_id := 2, pyramidal := Option.some true, cortical_layer := Option.none,
                      morpho_db_hash := Option.none, columns := [] }], []) :=
  ⟨rfl, rfl⟩

/-- C7 (amended): a malformed categorical or float annotation raises a
descriptive error naming the cell and the column, but the error aborts the
ENTIRE batch: whenever one cell of the list fails, create_db_entries
returns that error and imports none of the records, however many other
cells would import cleanly. -/
theorem morpho_batch_abort (md5 : String → String) (pyFloat : String → Option ℚ)
    (mr : List (Int × MorphoRec)) (cellLayer : Int → Option String)
    (good : List CellIn) (bad : CellIn) (rest : List CellIn) (e : String)
    (hgood : ∀ c ∈ good, ∃ v, createCellEntry md5 pyFloat mr cellLayer c = Except.ok v)
    (hbad : createCellEntry md5 pyFloat mr cellLayer bad = Except.error e) :
    create_db_entries md5 pyFloat mr cellLayer (good ++ bad :: rest) = Except.error e := by
  unfold create_db_entries
  rw [mapM_append_error (createCellEntry md5 pyFloat mr cellLayer) good bad rest e hgood hbad]
  rfl

/-- C7 witness: the batch [goodCell, badCell] aborts with the descriptive
error of the bad cell. -/
theorem morpho_batch_abort_witness :
    create_db_entries id (fun _ => Option.none) [(42, badMorphoRow)] (fun _ => Option.none)
        ([goodCell] ++ badCell :: [])
      = Except.error "Error parsing morphology annotation spiy for cell 42 from column dendrite_type" :=
  morpho_batch_abort id (fun _ => Option.none) [(42, badMorphoRow)] (fun _ => Option.none)
    [goodCell] badCell [] "Error parsing morphology annotation spiy for cell 42 from column dendrite_type"
    (by
      intro c hc
      rw [List.mem_singleton] at hc
      subst hc
      exact ⟨_, rfl⟩)
    rfl

/-- C8: the pyramidal flag is true for the experimenter string "pyr", null
for None or the empty string, and any other string produces the
"Unknown morphology string" warning while the Morphology record is still
created (with a null flag), not dropped. -/
theorem pyramidal_normalization :
    parsePyramidal (Option.some "pyr") = (Option.some true, [])
    ∧ parsePyramidal Option.none = (Option.none, [])
    ∧ parsePyramidal (Option.some "") = (Option.none, [])
    ∧ ∀ s : String, s ≠ "" → s ≠ "pyr" →
        parsePyramidal (Option.some s) = (Option.none, ["Unknown morphology string: " ++ s])
        ∧ ∀ (md5 : String → String) (pyFloat : String → Option ℚ)
            (mr : List (Int × MorphoRec)) (cellLayer : Int → Option String) (cid : Int),
            create_db_entries md5 pyFloat mr cellLayer
                [{ cell_id := cid, user_morpho := Option.some s, lims_specimen_id := Option.none }]
              = Except.ok ([{ cell_id := cid, pyramidal := Option.none, cortical_layer := Option.none,
                              morpho_db_hash := Option.none, columns := [] }],
                           ["Unknown morphology string: " ++ s]) := by
  refine ⟨rfl, rfl, rfl, ?_⟩
  intro s h1 h2
  have hp : parsePyramidal (Option.some s) = (Option.none, ["Unknown morphology string: " ++ s]) := by
    show (if s = "" then ((Option.none : Option Bool), ([] : List String))
          else if s = "pyr" then (Option.some true, [])
          else (Option.none, ["Unknown morphology string: " ++ s]))
        = (Option.none, ["Unknown morphology string: " ++ s])
    rw [if_neg h1, if_neg h2]
  refine ⟨hp, ?_⟩
  intro md5 pyFloat mr cellLayer cid
  unfold create_db_entries createCellEntry
  rw [List.mapM_cons]
  simp only [hp]
  rfl

/-- C8 witness: the unrecognized string "stellate" warns and the record is
still created. -/
theorem pyramidal_normalization_witness :
    parsePyramidal (Option.some "stellate")
      = (Option.none, ["Unknown morphology string: " ++ "stellate"])
    ∧ ∀ (md5 : String → String) (pyFloat : String → Option ℚ)
        (mr : List (Int × MorphoRec)) (cellLayer : Int → Option String) (cid : Int),
        create_db_entries md5 pyFloat mr cellLayer
            [{ cell_id := cid, user_morpho := Option.some "stellate", lims_specimen_id := Option.none }]
          = Except.ok ([{ cell_id := cid, pyramidal := Option.none, cortical_layer := Option.none,
                          morpho_db_hash := Option.none, columns := [] }],
                       ["Unknown morphology string: " ++ "stellate"]) :=
  pyramidal_normalization.2.2.2 "stellate" (by decide) (by decide)

/-- C9: when more than one experiment (resp. slice) record carries the
queried acq_timestamp, experiment_from_timestamp (resp.
slice_from_timestamp) returns the raised error to the caller instead of
silently selecting one of the matching records. -/
theorem ambiguous_timestamp_query_raises (expts : List ExperimentRec) (slices : List SliceRec) (ts : ℚ)
    (he : 1 < (expts.filter (fun e => decide (e.acq_timestamp = ts))).length)
    (hs : 1 < (slices.filter (fun s => decide (s.acq_timestamp = ts))).length) :
    experiment_from_timestamp expts ts
      = Except.error ("Multiple experiments found for timestamp " ++ toString ts)
    ∧ slice_from_timestamp slices ts
      = Except.error ("Multiple slices found for timestamp " ++ toString ts) := by
  constructor
  · unfold experiment_from_timestamp
    cases hm : expts.filter (fun e => decide (e.acq_timestamp = ts)) with
    | nil => rw [hm] at he; simp at he
    | cons a tl =>
      cases tl with
      | nil => rw [hm] at he; simp at he
      | cons b l => rfl
  · unfold slice_from_timestamp
    cases hm : slices.filter (fun s => decide (s.acq_timestamp = ts)) with
    | nil => rw [hm] at hs; simp at hs
    | cons a tl =>
      cases tl with
      | nil => rw [hm] at hs; simp at hs
      | cons b l => rfl

/-- C9 witness: two experiments and two slices at timestamp 1 make both
lookups fail with the ambiguity error. -/
theorem ambiguous_timestamp_query_raises_witness :
    experiment_from_timestamp [⟨1⟩, ⟨1⟩] 1
      = Except.error ("Multiple experiments found for timestamp " ++ toString (1 : ℚ))
    ∧ slice_from_timestamp [⟨1⟩, ⟨1⟩] 1
      = Except.error ("Multiple slices found for timestamp " ++ toString (1 : ℚ)) :=
  ambiguous_timestamp_query_raises [⟨1⟩, ⟨1⟩] [⟨1⟩, ⟨1⟩] 1 (by norm_num) (by norm_num)

theorem find?_first {A : Type} (p : A → Bool) (pre : List A) (e : A) (post : List A)
    (hpre : ∀ x ∈ pre, ¬ p x = true) (he : p e = true) :
    List.find? p (pre ++ e :: post) = Option.some e := by
  induction pre with
  | nil =>
    rw [List.nil_append]
    exact List.find?_cons_of_pos _ he
  | cons a as ih =>
    rw [List.cons_append, List.find?_cons_of_neg _ (hpre a (List.mem_cons_self a as))]
    exact ih (fun x hx => hpre x (List.mem_cons_of_mem a hx))

/-- C10: with zero exact matches, experiment_from_timestamp scans all
experiments in order and returns the FIRST whose acq_timestamp lies within
0.01 of the query, and raises the not-found error exactly when no
experiment lies within that tolerance. -/
theorem experiment_timestamp_fallback (expts : List ExperimentRec) (ts : ℚ)
    (hexact : expts.filter (fun e => decide (e.acq_timestamp = ts)) = []) :
    (∀ pre e post, expts = pre ++ e :: post →
        (∀ e' ∈ pre, ¬(|e'.acq_timestamp - ts| < 1 / 100)) →
        |e.acq_timestamp - ts| < 1 / 100 →
        experiment_from_timestamp expts ts = Except.ok e)
    ∧ ((∀ e ∈ expts, ¬(|e.acq_timestamp - ts| < 1 / 100)) →
        experiment_from_timestamp expts ts
          = Except.error ("No experiment found for timestamp " ++ toString ts)) := by
  constructor
  · intro pre e post hsplit hpre he
    unfold experiment_from_timestamp
    rw [hexact]
    have hfind : expts.find? (fun x => decide (|x.acq_timestamp - ts| < 1 / 100)) = Option.some e := by
      rw [hsplit]
      exact find?_first _ pre e post (fun x hx => by simpa using hpre x hx) (by simpa using he)
    rw [hfind]
  · intro hnone
    unfold experiment_from_timestamp
    rw [hexact]
    have hfind : expts.find? (fun x => decide (|x.acq_timestamp - ts| < 1 / 100)) = Option.none := by
      rw [List.find?_eq_none]
      intro x hx
      simpa using hnone x hx
    rw [hfind]

/-- C10 witness: timestamp 1.005 is found by the tolerance scan for the
query 1, which has no exact match. -/
theorem experiment_timestamp_fallback_witness :
    experiment_from_timestamp [⟨1 + 1 / 200⟩] 1 = Except.ok ⟨1 + 1 / 200⟩ :=
  (experiment_timestamp_fallback [⟨1 + 1 / 200⟩] 1
      (by simp only [List.filter_cons, List.filter_nil]; norm_num)).1
    [] ⟨1 + 1 / 200⟩ [] rfl
    (by intro e' he'; simp at he')
    (by rw [abs_lt]; constructor <;> norm_num)
